import Mathlib

/-!
Shallow embedding of the Tokenly-RTCServer signaling relay
(src/signaling_server.rs) and proofs about its reconnection tracker,
session registry, message codec and connection-episode handling.

Conventions of the embedding:
* Durations are natural numbers of milliseconds (the Rust code computes
  backoff in milliseconds via Duration::as_millis / Duration::from_millis;
  the u64 cast there cannot truncate for any value the program constructs,
  all of which are at most 60000 ms).
* SystemTime::now() is modelled by an explicit parameter now : Nat
  (milliseconds since an arbitrary epoch).
* The tokio HashMap-backed session map is modelled by an association list
  in which insert replaces any previous binding for the key, matching
  HashMap::insert / HashMap::remove semantics for size and membership.
* The three concurrent socket duties are modelled at the level of the
  inbound event sequence seen by the receiver task; an exhausted event
  list models the read timing out (receiver.next() timeout, lines 300 and
  341-342), which the code classifies as a network failure, matching the
  unwrap_or(NetworkError) in handle_nestjs_socket.
-/

namespace RTCServer

/-- Constant MAX_RECONNECT_ATTEMPTS (source line 16). -/
def MAX_RECONNECT_ATTEMPTS : Nat := 5

/-- Constant INITIAL_RECONNECT_DELAY in milliseconds (1 s, source line 17). -/
def INITIAL_RECONNECT_DELAY : Nat := 1000

/-- Constant MAX_RECONNECT_DELAY in milliseconds (30 s, source line 18). -/
def MAX_RECONNECT_DELAY : Nat := 30000

/-- Connection state enum (source lines 23-29). -/
inductive ConnectionState where
  | Connected
  | Disconnected
  | Reconnecting
  | Failed
  deriving DecidableEq

/-- ReconnectInfo struct (source lines 32-38). -/
structure ReconnectInfo where
  attempts : Nat
  next_delay : Nat
  last_attempt : Option Nat
  state : ConnectionState
  deriving DecidableEq

/-- ReconnectInfo::new (source lines 41-48). -/
def ReconnectInfo.new : ReconnectInfo :=
  { attempts := 0, next_delay := INITIAL_RECONNECT_DELAY, last_attempt := none,
    state := ConnectionState.Disconnected }

/-- ReconnectInfo::reset (source lines 50-55). -/
def ReconnectInfo.reset (_r : ReconnectInfo) : ReconnectInfo :=
  { attempts := 0, next_delay := INITIAL_RECONNECT_DELAY, last_attempt := none,
    state := ConnectionState.Connected }

/-- ReconnectInfo::increment_attempt (source lines 57-67): bump the counter,
stamp the time, mark Reconnecting, and double the delay capped at the max. -/
def ReconnectInfo.increment_attempt (r : ReconnectInfo) (now : Nat) : ReconnectInfo :=
  { attempts := r.attempts + 1,
    last_attempt := some now,
    state := ConnectionState.Reconnecting,
    next_delay := min (r.next_delay * 2) MAX_RECONNECT_DELAY }

/-- ReconnectInfo::should_attempt_reconnect (source lines 69-71). -/
def ReconnectInfo.should_attempt_reconnect (r : ReconnectInfo) : Bool :=
  decide (r.attempts < MAX_RECONNECT_ATTEMPTS) &&
    decide (r.state ≠ ConnectionState.Failed)

/-- ReconnectInfo::mark_failed (source lines 73-75). -/
def ReconnectInfo.mark_failed (r : ReconnectInfo) : ReconnectInfo :=
  { r with state := ConnectionState.Failed }

/-- The record-failure operation at the tracker level: the body of
SignalingState::attempt_reconnect (source lines 172-190) acting on the
locked ReconnectInfo.  The sleep on the computed delay is timing behaviour
with no effect on the tracker and is not modelled. -/
def ReconnectInfo.attempt_reconnect (r : ReconnectInfo) (now : Nat) :
    ReconnectInfo × Bool :=
  if r.should_attempt_reconnect then (r.increment_attempt now, true)
  else (r.mark_failed, false)

/-- Iterated record-failure calls: k consecutive calls to attempt_reconnect
starting from tracker r, all stamped with the same clock value. -/
def record_failures (r : ReconnectInfo) (now : Nat) : Nat → ReconnectInfo
  | 0 => r
  | k + 1 => ((record_failures r now k).attempt_reconnect now).1

/-- SessionInfo struct (source lines 114-119). -/
structure SessionInfo where
  session_id : String
  room_id : String
  created_at : Nat
  deriving DecidableEq

/-- The session registry: the HashMap String to SessionInfo behind the
active_sessions lock (source line 108), as an association list whose
operations match HashMap insert and remove. -/
structure Registry where
  entries : List (String × SessionInfo)
  deriving DecidableEq

/-- HashMap::remove on the registry. -/
def Registry.remove (m : Registry) (k : String) : Registry :=
  ⟨m.entries.filter (fun p => p.1 != k)⟩

/-- HashMap::insert on the registry: replaces any existing binding of k. -/
def Registry.insert (m : Registry) (k : String) (v : SessionInfo) : Registry :=
  ⟨(k, v) :: (m.remove k).entries⟩

/-- HashMap::len on the registry. -/
def Registry.size (m : Registry) : Nat := m.entries.length

/-- Signaling message enum (source lines 79-103). -/
inductive SignalingMessage where
  | CreatePeer (session_id room_id : String)
  | DestroyPeer (session_id : String)
  | PeerCreated (session_id : String) (success : Bool)
  | PeerDestroyed (session_id : String)
  deriving DecidableEq

/-- SignalingState (source lines 106-111).  The stored outbound sender is
modelled by an Option recording whether a sender is currently stored. -/
structure SignalingState where
  active_sessions : Registry
  nestjs_sender : Option Unit
  reconnect_info : ReconnectInfo
  deriving DecidableEq

/-- SignalingState::new (source lines 122-128). -/
def SignalingState.new : SignalingState :=
  { active_sessions := ⟨[]⟩, nestjs_sender := none,
    reconnect_info := ReconnectInfo.new }

/-- SignalingState::provide_turn_config (source lines 131-146): stores the
session and returns Ok(true). -/
def SignalingState.provide_turn_config (st : SignalingState)
    (session_id room_id : String) (now : Nat) :
    SignalingState × Except String Bool :=
  let session_info : SessionInfo :=
    { session_id := session_id, room_id := room_id, created_at := now }
  ({ st with active_sessions := st.active_sessions.insert session_id session_info },
   Except.ok true)

/-- SignalingState::destroy_session (source lines 149-154). -/
def SignalingState.destroy_session (st : SignalingState) (session_id : String) :
    SignalingState :=
  { st with active_sessions := st.active_sessions.remove session_id }

/-- SignalingState::get_active_sessions_count (source lines 157-160). -/
def SignalingState.get_active_sessions_count (st : SignalingState) : Nat :=
  st.active_sessions.size

/-- SignalingState::update_connection_state (source lines 163-169): writes
the given state, then if it is Connected performs a full reset. -/
def SignalingState.update_connection_state (st : SignalingState)
    (s : ConnectionState) : SignalingState :=
  let r := { st.reconnect_info with state := s }
  if s = ConnectionState.Connected then { st with reconnect_info := r.reset }
  else { st with reconnect_info := r }

/-- SignalingState::attempt_reconnect (source lines 172-190) lifted to the
whole state. -/
def SignalingState.attempt_reconnect (st : SignalingState) (now : Nat) :
    SignalingState × Bool :=
  let r := st.reconnect_info.attempt_reconnect now
  ({ st with reconnect_info := r.1 }, r.2)

/-- A JSON scalar value as it appears in a signaling frame. -/
inductive JsonValue where
  | str (s : String)
  | bool (b : Bool)
  | num (n : Int)
  | null
  deriving DecidableEq

/-- A parsed JSON object frame: field names paired with values. -/
abbrev JsonObj := List (String × JsonValue)

/-- Field access returning a string, as serde requires for the string
fields of SignalingMessage. -/
def get_str (o : JsonObj) (k : String) : Option String :=
  match o.lookup k with
  | some (JsonValue.str s) => some s
  | _ => none

/-- Field access returning a boolean, as serde requires for success. -/
def get_bool (o : JsonObj) (k : String) : Option Bool :=
  match o.lookup k with
  | some (JsonValue.bool b) => some b
  | _ => none

/-- Decoding a text frame: serde_json::from_str for the internally tagged
enum SignalingMessage (tag field "type", source lines 79-103 and 305).
A missing or non-string tag, an unknown tag, or a missing or wrongly
typed required field yields an error. -/
def decode (o : JsonObj) : Except String SignalingMessage :=
  match get_str o "type" with
  | none => Except.error "missing type tag"
  | some tag =>
    if tag = "create-peer" then
      match get_str o "session_id", get_str o "room_id" with
      | some sid, some rid => Except.ok (SignalingMessage.CreatePeer sid rid)
      | _, _ => Except.error "missing field"
    else if tag = "destroy-peer" then
      match get_str o "session_id" with
      | some sid => Except.ok (SignalingMessage.DestroyPeer sid)
      | none => Except.error "missing field"
    else if tag = "peer-created" then
      match get_str o "session_id", get_bool o "success" with
      | some sid, some b => Except.ok (SignalingMessage.PeerCreated sid b)
      | _, _ => Except.error "missing field"
    else if tag = "peer-destroyed" then
      match get_str o "session_id" with
      | some sid => Except.ok (SignalingMessage.PeerDestroyed sid)
      | none => Except.error "missing field"
    else Except.error "unknown variant"

/-- handle_signaling_message (source lines 403-444): dispatch one decoded
message, returning the updated state and the replies enqueued on tx. -/
def handle_signaling_message (message : SignalingMessage)
    (state : SignalingState) (now : Nat) :
    SignalingState × List SignalingMessage :=
  match message with
  | SignalingMessage.CreatePeer session_id room_id =>
    let r := state.provide_turn_config session_id room_id now
    match r.2 with
    | Except.ok _ => (r.1, [SignalingMessage.PeerCreated session_id true])
    | Except.error _ => (r.1, [SignalingMessage.PeerCreated session_id false])
  | SignalingMessage.DestroyPeer session_id =>
    (state.destroy_session session_id, [SignalingMessage.PeerDestroyed session_id])
  | _ => (state, [])

/-- One inbound observation of the receiver task (source lines 296-343):
a text frame, a close frame, transport ping or pong frames, any other
frame kind, a transport error, or the stream ending. -/
inductive InboundEvent where
  | text (o : JsonObj)
  | close
  | ping
  | pong
  | otherFrame
  | transportError
  | streamEnd
  deriving DecidableEq

/-- Connection result enum (source lines 236-240). -/
inductive ConnectionResult where
  | NormalClose
  | NetworkError
  deriving DecidableEq

/-- The receiver task loop (source lines 296-343) over a list of inbound
events: text frames are decoded and dispatched (decode failures are logged
and skipped), a close frame ends the episode normally, transport errors
and stream end are network failures, pings are answered with transport
pongs (not signaling replies; the channel is open while the loop runs) and
pongs and other frames are ignored.  The result is the state after the
processed events, the signaling replies enqueued, and the termination
outcome, or none when the events ran out with the loop still live. -/
def receiver_loop : SignalingState → Nat → List InboundEvent →
    SignalingState × List SignalingMessage × Option ConnectionResult
  | st, _, [] => (st, [], none)
  | st, now, InboundEvent.text o :: rest =>
    (match decode o with
     | Except.ok m =>
       let d := handle_signaling_message m st now
       let r := receiver_loop d.1 now rest
       (r.1, d.2 ++ r.2.1, r.2.2)
     | Except.error _ => receiver_loop st now rest)
  | st, _, InboundEvent.close :: _ =>
    (st, [], some ConnectionResult.NormalClose)
  | st, now, InboundEvent.ping :: rest => receiver_loop st now rest
  | st, now, InboundEvent.pong :: rest => receiver_loop st now rest
  | st, now, InboundEvent.otherFrame :: rest => receiver_loop st now rest
  | st, _, InboundEvent.transportError :: _ =>
    (st, [], some ConnectionResult.NetworkError)
  | st, _, InboundEvent.streamEnd :: _ =>
    (st, [], some ConnectionResult.NetworkError)

/-- handle_nestjs_socket (source lines 243-358): stores the outbound
sender, runs the duties over the inbound events, then clears the sender
and returns the episode outcome.  When the receiver did not terminate on
an event, the subsequent read times out and the episode ends as a network
failure, matching both the timeout fallthrough (lines 300, 341-342) and
the unwrap_or(NetworkError) in the select (lines 346-350). -/
def handle_nestjs_socket (st : SignalingState) (events : List InboundEvent)
    (now : Nat) : SignalingState × List SignalingMessage × ConnectionResult :=
  let st1 := { st with nestjs_sender := some () }
  let r := receiver_loop st1 now events
  ({ r.1 with nestjs_sender := none }, r.2.1,
   (r.2.2).getD ConnectionResult.NetworkError)

/-- handle_nestjs_socket_with_reconnect (source lines 209-233): mark
Connected, run the episode, mark Disconnected, and on a network failure
record the failure on the tracker. -/
def handle_nestjs_socket_with_reconnect (st : SignalingState)
    (events : List InboundEvent) (now : Nat) :
    SignalingState × List SignalingMessage :=
  let stc := st.update_connection_state ConnectionState.Connected
  let r := handle_nestjs_socket stc events now
  let st2 := r.1.update_connection_state ConnectionState.Disconnected
  match r.2.2 with
  | ConnectionResult.NormalClose => (st2, r.2.1)
  | ConnectionResult.NetworkError =>
    ({ st2 with reconnect_info := st2.reconnect_info.increment_attempt now },
     r.2.1)

/-- The four wire tags the codec recognises (source lines 83-99). -/
def known_tags : List String :=
  ["create-peer", "destroy-peer", "peer-created", "peer-destroyed"]

/-- A frame whose type tag is a string outside the recognised set. -/
def has_unknown_tag (o : JsonObj) : Prop :=
  ∃ s, get_str o "type" = some s ∧ s ∉ known_tags

/-- A frame whose tag is recognised (or absent) but which lacks a required
field of the corresponding variant, the tag itself counting as required. -/
def missing_required_field (o : JsonObj) : Prop :=
  match get_str o "type" with
  | none => True
  | some tag =>
    (tag = "create-peer" ∧
      (get_str o "session_id" = none ∨ get_str o "room_id" = none)) ∨
    (tag = "destroy-peer" ∧ get_str o "session_id" = none) ∨
    (tag = "peer-created" ∧
      (get_str o "session_id" = none ∨ get_bool o "success" = none)) ∨
    (tag = "peer-destroyed" ∧ get_str o "session_id" = none)

theorem should_attempt_reconnect_eq_true (r : ReconnectInfo) :
    r.should_attempt_reconnect = true ↔
      r.attempts < MAX_RECONNECT_ATTEMPTS ∧ r.state ≠ ConnectionState.Failed := by
  simp [ReconnectInfo.should_attempt_reconnect]

theorem attempt_reconnect_of_ok (r : ReconnectInfo) (now : Nat)
    (h1 : r.attempts < MAX_RECONNECT_ATTEMPTS)
    (h2 : r.state ≠ ConnectionState.Failed) :
    r.attempt_reconnect now = (r.increment_attempt now, true) := by
  have hb : r.should_attempt_reconnect = true :=
    (should_attempt_reconnect_eq_true r).mpr ⟨h1, h2⟩
  simp [ReconnectInfo.attempt_reconnect, hb]

theorem attempt_reconnect_of_blocked (r : ReconnectInfo) (now : Nat)
    (h : ¬ (r.attempts < MAX_RECONNECT_ATTEMPTS ∧ r.state ≠ ConnectionState.Failed)) :
    r.attempt_reconnect now = (r.mark_failed, false) := by
  have hb : r.should_attempt_reconnect = false := by
    cases hsb : r.should_attempt_reconnect with
    | false => rfl
    | true => exact absurd ((should_attempt_reconnect_eq_true r).mp hsb) h
  simp [ReconnectInfo.attempt_reconnect, hb]

/-- Claim C1: record_failure (attempt_reconnect) satisfies its contract: whenever
attempts < MAX_RECONNECT_ATTEMPTS and the state is not Failed it increments
attempts by one, stamps last_attempt with the current time, doubles next_delay
capped at MAX_RECONNECT_DELAY, sets the state to Reconnecting and returns true;
otherwise it sets the state to Failed and returns false without changing
attempts. -/
theorem attempt_reconnect_contract (r : ReconnectInfo) (now : Nat) :
    (r.attempts < MAX_RECONNECT_ATTEMPTS ∧ r.state ≠ ConnectionState.Failed →
      (r.attempt_reconnect now).1.attempts = r.attempts + 1 ∧
      (r.attempt_reconnect now).1.last_attempt = some now ∧
      (r.attempt_reconnect now).1.next_delay
          = min (r.next_delay * 2) MAX_RECONNECT_DELAY ∧
      (r.attempt_reconnect now).1.state = ConnectionState.Reconnecting ∧
      (r.attempt_reconnect now).2 = true) ∧
    (¬ (r.attempts < MAX_RECONNECT_ATTEMPTS ∧ r.state ≠ ConnectionState.Failed) →
      (r.attempt_reconnect now).1.state = ConnectionState.Failed ∧
      (r.attempt_reconnect now).2 = false ∧
      (r.attempt_reconnect now).1.attempts = r.attempts) := by
  constructor
  · intro h
    rw [attempt_reconnect_of_ok r now h.1 h.2]
    exact ⟨rfl, rfl, rfl, rfl, rfl⟩
  · intro h
    rw [attempt_reconnect_of_blocked r now h]
    exact ⟨rfl, rfl, rfl⟩

/-- Witness for the C1 contract, instantiating both branches at concrete
trackers. -/
theorem attempt_reconnect_contract_witness :
    ((ReconnectInfo.new.attempt_reconnect 7).1.attempts = ReconnectInfo.new.attempts + 1 ∧
      (ReconnectInfo.new.attempt_reconnect 7).1.last_attempt = some 7 ∧
      (ReconnectInfo.new.attempt_reconnect 7).1.next_delay
          = min (ReconnectInfo.new.next_delay * 2) MAX_RECONNECT_DELAY ∧
      (ReconnectInfo.new.attempt_reconnect 7).1.state = ConnectionState.Reconnecting ∧
      (ReconnectInfo.new.attempt_reconnect 7).2 = true) ∧
    ((ReconnectInfo.new.mark_failed.attempt_reconnect 7).1.state = ConnectionState.Failed ∧
      (ReconnectInfo.new.mark_failed.attempt_reconnect 7).2 = false ∧
      (ReconnectInfo.new.mark_failed.attempt_reconnect 7).1.attempts
          = ReconnectInfo.new.mark_failed.attempts) :=
  ⟨(attempt_reconnect_contract ReconnectInfo.new 7).1 (by decide),
   (attempt_reconnect_contract ReconnectInfo.new.mark_failed 7).2 (by decide)⟩

theorem record_failures_attempts_maxed (now : Nat) :
    ∀ j, (record_failures (ReconnectInfo.new.reset) now (MAX_RECONNECT_ATTEMPTS + j)).attempts
      = MAX_RECONNECT_ATTEMPTS
  | 0 => rfl
  | j + 1 => by
    have ih := record_failures_attempts_maxed now j
    show (((record_failures (ReconnectInfo.new.reset) now
        (MAX_RECONNECT_ATTEMPTS + j)).attempt_reconnect now).1).attempts
        = MAX_RECONNECT_ATTEMPTS
    rw [attempt_reconnect_of_blocked _ now (by rw [ih]; simp)]
    simpa [ReconnectInfo.mark_failed] using ih

/-- Claim C2 counterexample: starting from a freshly reset tracker, after exactly
MAX_RECONNECT_ATTEMPTS recorded failures the state is Reconnecting, not Failed;
the Failed transition only happens on the following call. -/
theorem record_failures_max_not_failed :
    ¬ (record_failures (ReconnectInfo.new.reset) 0 MAX_RECONNECT_ATTEMPTS).state
        = ConnectionState.Failed := by decide

/-- Claim C2 (amended): starting from a freshly reset tracker, after
MAX_RECONNECT_ATTEMPTS consecutive recorded failures the attempts counter equals
MAX_RECONNECT_ATTEMPTS and the state is Reconnecting; every subsequent call to
record_failure returns false, leaves the attempts counter unchanged, and sets
the state to Failed. -/
theorem record_failures_after_max (now j : Nat) :
    (record_failures (ReconnectInfo.new.reset) now MAX_RECONNECT_ATTEMPTS).attempts
        = MAX_RECONNECT_ATTEMPTS ∧
    (record_failures (ReconnectInfo.new.reset) now MAX_RECONNECT_ATTEMPTS).state
        = ConnectionState.Reconnecting ∧
    ((record_failures (ReconnectInfo.new.reset) now
        (MAX_RECONNECT_ATTEMPTS + j)).attempt_reconnect now).2 = false ∧
    ((record_failures (ReconnectInfo.new.reset) now
        (MAX_RECONNECT_ATTEMPTS + j)).attempt_reconnect now).1.attempts
      = (record_failures (ReconnectInfo.new.reset) now
        (MAX_RECONNECT_ATTEMPTS + j)).attempts ∧
    ((record_failures (ReconnectInfo.new.reset) now
        (MAX_RECONNECT_ATTEMPTS + j)).attempt_reconnect now).1.state
      = ConnectionState.Failed := by
  have hmax := record_failures_attempts_maxed now j
  have hblocked := attempt_reconnect_of_blocked
    (record_failures (ReconnectInfo.new.reset) now (MAX_RECONNECT_ATTEMPTS + j)) now
    (by rw [hmax]; simp)
  refine ⟨rfl, rfl, ?_, ?_, ?_⟩ <;> rw [hblocked] <;> rfl

/-- Claim C5: for every k < MAX_RECONNECT_ATTEMPTS, after k consecutive recorded
failures from a freshly reset tracker, next_delay equals
min (INITIAL_RECONNECT_DELAY * 2 ^ k) MAX_RECONNECT_DELAY, in exact integer
millisecond arithmetic. -/
theorem record_failures_backoff (now k : Nat) (hk : k < MAX_RECONNECT_ATTEMPTS) :
    (record_failures (ReconnectInfo.new.reset) now k).next_delay
        = min (INITIAL_RECONNECT_DELAY * 2 ^ k) MAX_RECONNECT_DELAY := by
  have hk5 : k < 5 := hk
  obtain rfl | rfl | rfl | rfl | rfl : k = 0 ∨ k = 1 ∨ k = 2 ∨ k = 3 ∨ k = 4 := by omega
  all_goals
    simp [record_failures, ReconnectInfo.attempt_reconnect, ReconnectInfo.increment_attempt,
      ReconnectInfo.should_attempt_reconnect, ReconnectInfo.reset, ReconnectInfo.new,
      MAX_RECONNECT_ATTEMPTS, INITIAL_RECONNECT_DELAY, MAX_RECONNECT_DELAY]

/-- Witness for the C5 backoff law at k = 4. -/
theorem record_failures_backoff_witness :
    4 < MAX_RECONNECT_ATTEMPTS ∧
    (record_failures (ReconnectInfo.new.reset) 0 4).next_delay
        = min (INITIAL_RECONNECT_DELAY * 2 ^ 4) MAX_RECONNECT_DELAY :=
  ⟨by decide, record_failures_backoff 0 4 (by decide)⟩

/-- Claim C6: mark_connected (update_connection_state with Connected) always sets
the state to Connected and resets attempts to 0 and next_delay to
INITIAL_RECONNECT_DELAY, for every prior tracker state including Failed. -/
theorem update_connection_state_connected (st : SignalingState) :
    (st.update_connection_state ConnectionState.Connected).reconnect_info.state
        = ConnectionState.Connected ∧
    (st.update_connection_state ConnectionState.Connected).reconnect_info.attempts = 0 ∧
    (st.update_connection_state ConnectionState.Connected).reconnect_info.next_delay
        = INITIAL_RECONNECT_DELAY :=
  ⟨rfl, rfl, rfl⟩

/-- Claim C10: mark_connected (update_connection_state with Connected) also
clears last_attempt to none, on top of the spec-stated resets of attempts,
next_delay and state. -/
theorem update_connection_state_connected_frame (st : SignalingState) :
    (st.update_connection_state ConnectionState.Connected).reconnect_info.last_attempt
        = none ∧
    (st.update_connection_state ConnectionState.Connected).reconnect_info
        = { attempts := 0, next_delay := INITIAL_RECONNECT_DELAY, last_attempt := none,
            state := ConnectionState.Connected } :=
  ⟨rfl, rfl⟩

theorem dispatch_preserves_tracker (m : SignalingMessage) (st : SignalingState) (now : Nat) :
    (handle_signaling_message m st now).1.reconnect_info = st.reconnect_info ∧
    (handle_signaling_message m st now).1.nestjs_sender = st.nestjs_sender := by
  cases m <;> exact ⟨rfl, rfl⟩

theorem receiver_loop_preserves_tracker (now : Nat) :
    ∀ (events : List InboundEvent) (st : SignalingState),
      (receiver_loop st now events).1.reconnect_info = st.reconnect_info ∧
      (receiver_loop st now events).1.nestjs_sender = st.nestjs_sender := by
  intro events
  induction events with
  | nil => intro st; exact ⟨rfl, rfl⟩
  | cons e rest ih =>
    intro st
    cases e with
    | text o =>
      cases hd : decode o with
      | ok m =>
        have hmsg := dispatch_preserves_tracker m st now
        have hrec := ih (handle_signaling_message m st now).1
        simp only [receiver_loop, hd]
        exact ⟨hrec.1.trans hmsg.1, hrec.2.trans hmsg.2⟩
      | error e => simpa only [receiver_loop, hd] using ih st
    | close => exact ⟨rfl, rfl⟩
    | ping => exact ih st
    | pong => exact ih st
    | otherFrame => exact ih st
    | transportError => exact ⟨rfl, rfl⟩
    | streamEnd => exact ⟨rfl, rfl⟩

theorem handle_socket_effects (st : SignalingState) (events : List InboundEvent) (now : Nat) :
    (handle_nestjs_socket st events now).1.nestjs_sender = none ∧
    (handle_nestjs_socket st events now).1.reconnect_info = st.reconnect_info := by
  have h := receiver_loop_preserves_tracker now events { st with nestjs_sender := some () }
  exact ⟨rfl, h.1⟩

/-- Claim C3: when a connection episode terminates, the stored outbound sender
has been cleared and the state set to Disconnected, and exactly when the outcome
was a network failure the failure is recorded, which on the post-episode tracker
coincides with record_failure (attempt_reconnect); in particular after a first
read timeout on a fresh connection (an exhausted event stream) the tracker
passes through Connected and Disconnected and ends Reconnecting with attempts
equal to 1. -/
theorem episode_termination_effects (st : SignalingState) (events : List InboundEvent)
    (now : Nat) :
    (handle_nestjs_socket_with_reconnect st events now).1.nestjs_sender = none ∧
    ((handle_nestjs_socket (st.update_connection_state ConnectionState.Connected) events
          now).2.2 = ConnectionResult.NetworkError →
      (handle_nestjs_socket_with_reconnect st events now).1.reconnect_info
        = (ReconnectInfo.attempt_reconnect
            { attempts := 0, next_delay := INITIAL_RECONNECT_DELAY, last_attempt := none,
              state := ConnectionState.Disconnected } now).1 ∧
      (handle_nestjs_socket_with_reconnect st events now).1.reconnect_info.state
        = ConnectionState.Reconnecting ∧
      (handle_nestjs_socket_with_reconnect st events now).1.reconnect_info.attempts = 1) ∧
    ((handle_nestjs_socket (st.update_connection_state ConnectionState.Connected) events
          now).2.2 = ConnectionResult.NormalClose →
      (handle_nestjs_socket_with_reconnect st events now).1.reconnect_info
        = { attempts := 0, next_delay := INITIAL_RECONNECT_DELAY, last_attempt := none,
            state := ConnectionState.Disconnected }) ∧
    (st.update_connection_state ConnectionState.Connected).reconnect_info.state
        = ConnectionState.Connected ∧
    ((handle_nestjs_socket (st.update_connection_state ConnectionState.Connected) [] now).1.update_connection_state
        ConnectionState.Disconnected).reconnect_info.state = ConnectionState.Disconnected ∧
    (handle_nestjs_socket_with_reconnect st [] now).1.reconnect_info.state
        = ConnectionState.Reconnecting ∧
    (handle_nestjs_socket_with_reconnect st [] now).1.reconnect_info.attempts = 1 := by
  have heff := handle_socket_effects (st.update_connection_state ConnectionState.Connected)
    events now
  rcases hr : handle_nestjs_socket (st.update_connection_state ConnectionState.Connected)
    events now with ⟨st1, out, res⟩
  rw [hr] at heff
  simp only at heff
  refine ⟨?_, ?_, ?_, rfl, rfl, rfl, rfl⟩ <;>
    simp only [handle_nestjs_socket_with_reconnect, hr] <;> cases res
  · exact heff.1
  · exact heff.1
  · simp
  · intro _
    rw [attempt_reconnect_of_ok _ now (by decide) (by decide)]
    have h2 : (st1.update_connection_state ConnectionState.Disconnected).reconnect_info
        = { attempts := 0, next_delay := INITIAL_RECONNECT_DELAY, last_attempt := none,
            state := ConnectionState.Disconnected } := by
      simp only [SignalingState.update_connection_state]
      rw [if_neg (by simp)]
      simp only [heff.2]
      rfl
    simp only [h2]
    exact ⟨trivial, rfl, rfl⟩
  · intro _
    simp only [SignalingState.update_connection_state]
    rw [if_neg (by simp)]
    simp only [heff.2]
    rfl
  · simp

/-- Witness for C3 on a fresh connection whose read times out immediately. -/
theorem episode_termination_effects_witness :
    (handle_nestjs_socket_with_reconnect SignalingState.new [] 3).1.reconnect_info
        = (ReconnectInfo.attempt_reconnect
            { attempts := 0, next_delay := INITIAL_RECONNECT_DELAY, last_attempt := none,
              state := ConnectionState.Disconnected } 3).1 ∧
    (handle_nestjs_socket_with_reconnect SignalingState.new [] 3).1.nestjs_sender = none :=
  ⟨((episode_termination_effects SignalingState.new [] 3).2.1 (by decide)).1,
   (episode_termination_effects SignalingState.new [] 3).1⟩

/-- Concrete starting state for the C4 counterexample: the registry already
holds a session registered under the id s1. -/
def preexisting_state : SignalingState :=
  { active_sessions := ⟨[("s1", { session_id := "s1", room_id := "r1", created_at := 0 })]⟩,
    nestjs_sender := none, reconnect_info := ReconnectInfo.new }

/-- Claim C4 counterexample: with a session already registered under the id s1,
CreatePeer for s1 followed by DestroyPeer for s1 drops the count from 1 to 0,
so the count does not return to its pre-sequence value for every starting
registry. -/
theorem create_destroy_count_counterexample :
    ¬ ((handle_signaling_message (SignalingMessage.DestroyPeer "s1")
          (handle_signaling_message (SignalingMessage.CreatePeer "s1" "r1")
            preexisting_state 1).1 2).1.get_active_sessions_count
        = preexisting_state.get_active_sessions_count) := by decide

/-- Claim C4 (amended): provided the session id is not already present in the
registry, performing the CreatePeer registration followed by the DestroyPeer
removal for that id leaves the count equal to its value before the sequence. -/
theorem create_destroy_count_roundtrip (st : SignalingState) (sid rid : String)
    (t1 t2 : Nat) (h : ∀ p ∈ st.active_sessions.entries, p.1 ≠ sid) :
    (handle_signaling_message (SignalingMessage.DestroyPeer sid)
        (handle_signaling_message (SignalingMessage.CreatePeer sid rid) st t1).1
        t2).1.get_active_sessions_count
      = st.get_active_sessions_count := by
  have hfil : st.active_sessions.entries.filter (fun p => p.1 != sid)
      = st.active_sessions.entries :=
    List.filter_eq_self.mpr (by intro a ha; simpa using h a ha)
  simp [handle_signaling_message, SignalingState.provide_turn_config,
    SignalingState.destroy_session, SignalingState.get_active_sessions_count,
    Registry.insert, Registry.remove, Registry.size, List.filter_cons, hfil]

/-- Witness for the amended C4 on the empty registry. -/
theorem create_destroy_count_roundtrip_witness :
    (handle_signaling_message (SignalingMessage.DestroyPeer "s1")
        (handle_signaling_message (SignalingMessage.CreatePeer "s1" "r1")
          SignalingState.new 0).1 1).1.get_active_sessions_count
      = SignalingState.new.get_active_sessions_count :=
  create_destroy_count_roundtrip SignalingState.new "s1" "r1" 0 1
    (by intro p hp; simp [SignalingState.new] at hp)

/-- Claim C7: every inbound text frame whose JSON carries an unknown type tag or
lacks a required field decodes to an error and is dropped: the receive loop does
not terminate, no reply is enqueued, and the whole state, registry included, is
unchanged. -/
theorem malformed_frame_dropped (st : SignalingState) (now : Nat) (o : JsonObj)
    (h : has_unknown_tag o ∨ missing_required_field o) :
    (∃ e, decode o = Except.error e) ∧
    receiver_loop st now [InboundEvent.text o] = (st, [], none) := by
  have herr : ∃ e, decode o = Except.error e := by
    rcases h with ⟨s, hs, hmem⟩ | hmiss
    · simp [known_tags] at hmem
      exact ⟨"unknown variant",
        by simp [decode, hs, hmem.1, hmem.2.1, hmem.2.2.1, hmem.2.2.2]⟩
    · unfold missing_required_field at hmiss
      cases hty : get_str o "type" with
      | none => exact ⟨"missing type tag", by simp [decode, hty]⟩
      | some tag =>
        rw [hty] at hmiss
        rcases hmiss with ⟨htag, hf⟩ | ⟨htag, hf⟩ | ⟨htag, hf⟩ | ⟨htag, hf⟩ <;> subst htag
        · refine ⟨"missing field", ?_⟩
          rcases hf with hf | hf <;>
            · simp only [decode, hty, if_pos rfl, hf]
              cases hx : get_str o "session_id" <;> cases hy : get_str o "room_id" <;>
                simp_all
        · refine ⟨"missing field", ?_⟩
          simp [decode, hty, hf]
        · refine ⟨"missing field", ?_⟩
          rcases hf with hf | hf <;>
            · simp only [decode, hty, hf]
              cases hx : get_str o "session_id" <;> cases hy : get_bool o "success" <;>
                simp_all
        · refine ⟨"missing field", ?_⟩
          simp [decode, hty, hf]
  obtain ⟨e, he⟩ := herr
  refine ⟨⟨e, he⟩, ?_⟩
  simp [receiver_loop, he]

/-- Witness for C7 on the frame carrying the unknown tag unknown-tag. -/
theorem malformed_frame_dropped_witness :
    (∃ e, decode [("type", JsonValue.str "unknown-tag")] = Except.error e) ∧
    receiver_loop SignalingState.new 0 [InboundEvent.text [("type", JsonValue.str "unknown-tag")]]
      = (SignalingState.new, [], none) :=
  malformed_frame_dropped SignalingState.new 0 [("type", JsonValue.str "unknown-tag")]
    (Or.inl ⟨"unknown-tag", rfl, by decide⟩)

/-- Claim C8: dispatch registers the session and replies PeerCreated with
success true for CreatePeer, removes the session (idempotently, via the registry
remove) and replies PeerDestroyed unconditionally for DestroyPeer, ignores the
outbound-only variants received inbound, and no successfully decoded frame
terminates the receive loop. -/
theorem dispatch_contract (st : SignalingState) (now : Nat) (sid rid : String) (b : Bool) :
    handle_signaling_message (SignalingMessage.CreatePeer sid rid) st now
      = ({ st with active_sessions := (st.active_sessions.insert sid ⟨sid, rid, now⟩) },
         [SignalingMessage.PeerCreated sid true]) ∧
    handle_signaling_message (SignalingMessage.DestroyPeer sid) st now
      = ({ st with active_sessions := st.active_sessions.remove sid },
         [SignalingMessage.PeerDestroyed sid]) ∧
    handle_signaling_message (SignalingMessage.PeerCreated sid b) st now = (st, []) ∧
    handle_signaling_message (SignalingMessage.PeerDestroyed sid) st now = (st, []) ∧
    (∀ (o : JsonObj) (m : SignalingMessage), decode o = Except.ok m →
      (receiver_loop st now [InboundEvent.text o]).2.2 = none) := by
  refine ⟨rfl, rfl, rfl, rfl, ?_⟩
  intro o m hm
  simp [receiver_loop, hm]

/-- Witness for C8 at concrete create and destroy frames. -/
theorem dispatch_contract_witness :
    handle_signaling_message (SignalingMessage.CreatePeer "s1" "r1") SignalingState.new 0
      = ({ SignalingState.new with
            active_sessions := (SignalingState.new.active_sessions.insert "s1" ⟨"s1", "r1", 0⟩) },
         [SignalingMessage.PeerCreated "s1" true]) ∧
    (receiver_loop SignalingState.new 0
        [InboundEvent.text [("type", JsonValue.str "destroy-peer"),
          ("session_id", JsonValue.str "s1")]]).2.2 = none :=
  ⟨(dispatch_contract SignalingState.new 0 "s1" "r1" true).1,
   (dispatch_contract SignalingState.new 0 "s1" "r1" true).2.2.2.2
     [("type", JsonValue.str "destroy-peer"), ("session_id", JsonValue.str "s1")]
     (SignalingMessage.DestroyPeer "s1") rfl⟩

/-- Claim C9: provide_turn_config returns Ok true on every input, so the
success false branch of CreatePeer handling is unreachable and every PeerCreated
reply produced by dispatch carries success true. -/
theorem provide_turn_config_infallible (st : SignalingState) (sid rid : String)
    (now : Nat) (m : SignalingMessage) :
    (st.provide_turn_config sid rid now).2 = Except.ok true ∧
    (∀ s b, SignalingMessage.PeerCreated s b ∈ (handle_signaling_message m st now).2 →
      b = true) := by
  refine ⟨rfl, ?_⟩
  intro s b hb
  cases m <;> simp [handle_signaling_message, SignalingState.provide_turn_config] at hb
  exact hb.2

/-- Witness for C9, applying both parts at concrete inputs. -/
theorem provide_turn_config_infallible_witness :
    (SignalingState.new.provide_turn_config "s1" "r1" 0).2 = Except.ok true ∧ true = true :=
  ⟨(provide_turn_config_infallible SignalingState.new "s1" "r1" 0
      (SignalingMessage.DestroyPeer "x")).1,
   (provide_turn_config_infallible SignalingState.new "s1" "r1" 0
      (SignalingMessage.CreatePeer "s1" "r1")).2 "s1" true (by decide)⟩

end RTCServer
